import Mathlib

/-!
Shallow embedding of the EPS Agent single-page application
(Electronic-Payment-Validation-AI-Agent): the content-preparation
utilities of `src/lib/epsUtils.ts` (latest revision, default limit 50000),
the model client `sendChatMessage` of `src/api/chat.ts`, the reply
extraction of the mock API route, the structured test-case detection
pattern, and the orchestrator state machine of `src/pages/ChatPage.tsx`.

Modelling conventions:
* JavaScript strings are Lean `String`s; `content.length` (UTF-16 units)
  is modelled by the character count `String.length`.
* The case-insensitive regular expression flag `/i` is modelled by
  lower-casing the scanned text with `Char.toLower` (ASCII folding).
* `Date` timestamps and the random part of `generateId` carry no
  decision logic; task identifiers are drawn from a counter `nextId`,
  and timestamp fields are omitted.
* Each `async` handler is split at its `await fetch` suspension point:
  starting a request pushes the suspended continuation's data onto a
  pending queue in the state, and a separate resolution event (carrying
  the network outcome) runs the rest of the handler.  Outstanding
  requests resolve in issue order.
-/

namespace EpsAgent

/-! ## Generic string machinery

`String.data` is the underlying character list; the helpers below work on
that list so that every definition evaluates inside the kernel. -/

/-- Characters of a string lower-cased (ASCII), modelling what a
case-insensitive pattern effectively scans. -/
def lcs (s : String) : List Char := s.data.map Char.toLower

/-- `hasPre p l` holds when the list `l` starts with the pattern `p`. -/
def hasPre : List Char → List Char → Bool
  | [], _ => true
  | _ :: _, [] => false
  | p :: ps, c :: cs => p = c && hasPre ps cs

/-- `occursIn p l`: the pattern `p` occurs contiguously somewhere in `l`. -/
def occursIn (p : List Char) : List Char → Bool
  | [] => p.isEmpty
  | c :: cs => hasPre p (c :: cs) || occursIn p cs

/-- `strContains hay needle`: `needle` occurs contiguously in `hay`. -/
def strContains (hay needle : String) : Bool := occursIn needle.data hay.data

/-! ## Test-case detection (`ChatPage.tsx` line 104, `ChatInterface.tsx` line 47)

The scanned pattern is `/{TestCaseID|StepNo\b|<StepNo/i`: the literal
`{TestCaseID`, the literal `StepNo` followed by a word boundary, or the
literal `<StepNo`, all case-insensitive. -/

/-- JavaScript `\w` (word) character class: ASCII letters, digits, underscore. -/
def isWordChar (c : Char) : Bool := c.isAlphanum || c = '_'

/-- The alternative `StepNo\b` matched at the head of the lower-cased text:
the literal `stepno` whose following character, if any, is not a word
character. -/
def stepNoHit (l : List Char) : Bool :=
  hasPre "stepno".data l &&
    (match l.drop 6 with
     | [] => true
     | c :: _ => !(isWordChar c))

/-- One of the three alternatives of the pattern matches at the head of the
lower-cased text. -/
def hitTC (l : List Char) : Bool :=
  hasPre "\x7btestcaseid".data l || hasPre "<stepno".data l || stepNoHit l

/-- Scan of the lower-cased text for a match at any position. -/
def scanTC : List Char → Bool
  | [] => false
  | c :: cs => hitTC (c :: cs) || scanTC cs

/-- The test-case detection predicate `isTestCase` applied to a chat message. -/
def isTestCaseContent (s : String) : Bool := scanTC (lcs s)

/-! ## Content preparation (`src/lib/epsUtils.ts`, latest revision) -/

/-- JavaScript `s.slice(0, e)` where the end index `e` may be negative
(a negative index counts from the end of the string, clamped at 0). -/
def jsSlice (s : String) (e : Int) : String :=
  if 0 ≤ e then String.mk (s.data.take e.toNat)
  else String.mk (s.data.take ((s.length : Int) + e).toNat)

/-- The explanatory warning appended by `truncateContent`, interpolating the
original length and the configured limit (template literal of line 125). -/
def truncSuffix (origLen maxLength : Nat) : String :=
  "...\n[Content truncated: Original length " ++ toString origLen ++
    " exceeds limit of " ++ toString maxLength ++
    " characters. Please use a smaller input or a larger model.]"

/-- `truncateContent(content, maxLength)` (lines 121-133): content returned
unchanged when within the limit, else `content.slice(0, maxLength - 100)`
followed by the warning suffix. -/
def truncateContent (content : String) (maxLength : Nat) : String :=
  if content.length ≤ maxLength then content
  else jsSlice content ((maxLength : Int) - 100) ++ truncSuffix content.length maxLength

/-- `truncateContent(content)` called without an explicit limit: the
TypeScript default parameter is `maxLength: number = 50000` (line 121 of the
latest revision; an earlier revision used 10000). -/
def truncateContentDefault (content : String) : String := truncateContent content 50000

/-- Fixed system-instruction opening of the validation prompt, up to the
interpolation of the log content (template literal of lines 99-105). -/
def promptHead : String :=
  "System: You are an EPS log validator. Parse and analyze the raw EPS log content: ["

/-- Fixed middle of the validation prompt, between the log content and the
test-case content. -/
def promptMid : String := "]. Validate it against this test case: ["

/-- Fixed remainder of the system instruction, after the test-case content
and before the closing user instruction. -/
def promptBody : String :=
  "]. For each test case step, verify the action in the log and cite specific log entries (e.g., timestamps, request IDs, service responses) as evidence. Output in this format: \nOverall Result: PASS or FAIL\nReasoning and Evidence:\n- Step 1: [Action and verification details with specific log excerpts]\n- Step 2: [Details]\n...\nIf the log or test case is malformed, note the issue but attempt validation. If no relevant log entries are found, indicate this explicitly.\n"

/-- The fixed closing user instruction of the validation prompt. -/
def userInstruction : String := "User: Validate the test case against the EPS log now."

/-- `buildEpsValidationPrompt(epsLogContent, testCaseContent)` (lines 98-113):
the fixed template with the two inputs interpolated. -/
def buildEpsValidationPrompt (epsLogContent testCaseContent : String) : String :=
  promptHead ++ epsLogContent ++ promptMid ++ testCaseContent ++ promptBody ++ userInstruction

/-! ## Model client (`src/api/chat.ts`) -/

/-- The request record consumed by `sendChatMessage`; the two contents are
optional fields. -/
structure ChatRequest where
  message : String
  epsLogContent : Option String
  testCaseContent : Option String
deriving DecidableEq

/-- The response record produced by `sendChatMessage`; an ordinary reply has
no `error` field. -/
structure ChatResponse where
  reply : String
  error : Option String
deriving DecidableEq

/-- The reply-bearing fields a parsed 2xx response body may carry:
`message.content`, top-level `content`, and `choices[0].message.content`
(the last is consulted only by the mock route). -/
structure OllamaBody where
  messageContent : Option String
  content : Option String
  choice0MessageContent : Option String
deriving DecidableEq

/-- Outcome of the single `fetch`: an HTTP response with a status code and a
parsed JSON body, or a network-level failure carrying the error message
(`error instanceof Error ? error.message : 'Unknown error'`). -/
inductive HttpOutcome where
  | response (status : Nat) (body : OllamaBody)
  | networkFailure (errMsg : String)
deriving DecidableEq

/-- WHATWG `Response.ok`: the status code lies in the range 200-299. -/
def respOk (status : Nat) : Bool := 200 ≤ status && status < 300

/-- JavaScript truthiness of a possibly-absent string: `undefined` and the
empty string are falsy. -/
def truthy : Option String → Bool
  | none => false
  | some s => decide (s ≠ "")

/-- JavaScript `a || b` for a possibly-absent string `a` and fallback `b`. -/
def jsOrElse (a : Option String) (b : String) : String :=
  match a with
  | none => b
  | some s => if s = "" then b else s

/-- Reply extraction of `src/api/chat.ts` line 60:
`data?.message?.content || data?.content || "No reply from model"`. -/
def extractReply (body : OllamaBody) : String :=
  jsOrElse body.messageContent (jsOrElse body.content "No reply from model")

/-- Reply extraction of the mock API route (lines 161-165 of the mock file):
as above but also consulting `data?.choices?.[0]?.message?.content`. -/
def extractReplyMock (body : OllamaBody) : String :=
  jsOrElse body.messageContent (jsOrElse body.content
    (jsOrElse body.choice0MessageContent "No reply from model"))

/-- The apology returned by `sendChatMessage`'s catch block. -/
def connectApology : String :=
  "Sorry, I cannot connect to the local AI service. Please ensure Ollama is running on localhost:11434 and the model is loaded."

/-- Prompt selection of `sendChatMessage` (lines 32-39): when both optional
contents are truthy, each is truncated at the default limit and combined by
`buildEpsValidationPrompt`; otherwise the raw `message` field is the prompt. -/
def requestPrompt (req : ChatRequest) : String :=
  if truthy req.epsLogContent && truthy req.testCaseContent then
    buildEpsValidationPrompt (truncateContentDefault (req.epsLogContent.getD ""))
      (truncateContentDefault (req.testCaseContent.getD ""))
  else req.message

/-- `sendChatMessage` (lines 41-74), given the outcome of its single `fetch`
(whose posted prompt is `requestPrompt req`): a non-ok status throws
`HTTP error! status: <code>`, a network failure propagates its message, and
the surrounding catch turns either throw into a resolved response carrying
the apology reply and the error text; an ok status yields the extracted
reply with no error field. -/
def sendChatMessage (req : ChatRequest) (outcome : HttpOutcome) : ChatResponse :=
  match outcome with
  | .response st body =>
      if respOk st then { reply := extractReply body, error := none }
      else { reply := connectApology, error := some ("HTTP error! status: " ++ toString st) }
  | .networkFailure m => { reply := connectApology, error := some m }

/-! ## Orchestrator state machine (`src/pages/ChatPage.tsx`, validation variant)

The React component state becomes an explicit record; each handler becomes
a function on it.  The `await callChatAPI(...)` suspension points are
modelled by the queues `pendingChats` / `pendingValidations` together with
resolution events carrying the network outcome. -/

/-- The `AppState` enumeration of the application mode. -/
inductive AppState where
  | CHATTING
  | TASK_MODE
  | TASKS_COMPLETED
deriving DecidableEq

/-- Message roles. -/
inductive Role where
  | user
  | assistant
deriving DecidableEq

/-- A chat message (identifier and timestamp omitted; generation order is
the list order). -/
structure ChatMessage where
  role : Role
  content : String
deriving DecidableEq

/-- A validation task (`Task` interface; the `completedAt` timestamp is
omitted). -/
structure Task where
  id : Nat
  description : String
  completed : Bool
  justification : Option String
  epsLogContent : Option String
  testCaseContent : Option String
deriving DecidableEq

/-- The confirmation payload delivered by the `EpsConfirmation` form. -/
structure EpsConfirmationData where
  pathToFile : String
  epsLogContent : String
  testCaseContent : String
deriving DecidableEq

/-- The session state held by `ChatPage`: the React `useState` variables,
plus the queues of suspended requests and the identifier counter. -/
structure SessionState where
  appState : AppState
  messages : List ChatMessage
  tasks : List Task
  completedTasksCount : Nat
  currentFile : String
  isLoading : Bool
  showConfirmation : Bool
  pendingChats : Nat
  pendingValidations : List Task
  nextId : Nat
deriving DecidableEq

/-- Outcome of an awaited `callChatAPI` call: the extracted reply on
success, or the thrown error's message. -/
inductive ApiOutcome where
  | ok (reply : String)
  | err (message : String)
deriving DecidableEq

/-- `addMessage`: append a message to the chat history. -/
def addMessage (s : SessionState) (role : Role) (content : String) : SessionState :=
  { s with messages := s.messages ++ [{ role := role, content := content }] }

/-- The single validation task created by `handleFileConfirmation` (lines
157-164): fixed description, not completed, contents attached. -/
def confirmationTask (s : SessionState) (data : EpsConfirmationData) : Task :=
  { id := s.nextId, description := "Validate test case against EPS log",
    completed := false, justification := none,
    epsLogContent := some data.epsLogContent,
    testCaseContent := some data.testCaseContent }

/-- The in-place completion of a task performed by the validation result
handler: completion flag set, justification recorded. -/
def completeTask (t : Task) (j : String) : Task :=
  { t with completed := true, justification := some j }

/-- Assistant reply of the test-case detection path of `handleSendMessage`. -/
def testCaseDetectedReply : String :=
  "Test case detected. Please upload the corresponding EPS log file to proceed with validation."

/-- Assistant apology appended when a free-text chat request fails. -/
def chatFailureReply : String :=
  "Sorry, I encountered an error processing your message. Please try again."

/-- Assistant apology appended when the validation request fails. -/
def validationFailureReply : String :=
  "Sorry, validation failed. Please check the log file and test case format."

/-- Assistant confirmation appended by `handleFileConfirmation`. -/
def confirmationReply (path : String) : String :=
  "EPS log \"" ++ path ++ "\" and test case received. Initiating validation..."

/-- Assistant message appended by `handleStartNewTask`. -/
def newTaskReply : String :=
  "Ready to start a new validation task! Please upload an EPS log file and paste your test case."

/-- Assistant message of the `request-feature` sidebar action. -/
def featureReply : String :=
  "I\x27d be happy to help with feature requests! Please describe what functionality you\x27d like to see added to the EPS Agent system."

/-- Assistant message of the `privacy` sidebar action. -/
def privacyReply : String :=
  "Privacy Information: EPS Agent runs entirely on your local machine. All file processing, AI conversations, and data analysis happen locally. No data is sent to external servers, ensuring complete privacy and security of your documents."

/-- `handleSendMessage` (lines 95-143) up to its suspension point: rejected
outright while loading; on test-case detection the user message and a fixed
assistant prompt are appended and the confirmation form is shown, with no
network call; otherwise the user message is appended, the busy flag is set
and a chat request is issued. -/
def handleSendMessage (s : SessionState) (messageContent : String) : SessionState :=
  if s.isLoading then s
  else if isTestCaseContent messageContent then
    let s1 := addMessage (addMessage s .user messageContent) .assistant testCaseDetectedReply
    { s1 with showConfirmation := true }
  else
    let s1 := addMessage s .user messageContent
    { s1 with isLoading := true, pendingChats := s.pendingChats + 1 }

/-- Resolution of an outstanding free-text chat request (rest of
`handleSendMessage` after the `await`): the reply, or the apology on
failure, is appended and the busy flag is cleared. -/
def resolveChatRequest (s : SessionState) (outcome : ApiOutcome) : SessionState :=
  match s.pendingChats with
  | 0 => s
  | n + 1 =>
      let reply := match outcome with
        | .ok r => r
        | .err _ => chatFailureReply
      let s1 := addMessage s .assistant reply
      { s1 with pendingChats := n, isLoading := false }

/-- `handleFileConfirmation` (lines 146-179) up to the suspension point of
the `processEpsValidation` it awaits: only reachable while the confirmation
form is shown; records the file, hides the form, enters TASK_MODE with one
fresh incomplete task, resets the completed count, appends the confirmation
message, sets the busy flag and issues the validation request. -/
def handleFileConfirmation (s : SessionState) (data : EpsConfirmationData) : SessionState :=
  if s.showConfirmation then
    let t : Task := confirmationTask s data
    let s1 : SessionState :=
      { s with
        currentFile := data.pathToFile, showConfirmation := false,
        appState := .TASK_MODE, tasks := [t], completedTasksCount := 0,
        nextId := s.nextId + 1 }
    let s2 := addMessage s1 .assistant (confirmationReply data.pathToFile)
    { s2 with isLoading := true, pendingValidations := s.pendingValidations ++ [t] }
  else s

/-- Resolution of an outstanding validation request (`processEpsValidation`,
lines 182-234, after its `await`): on success and on failure alike the task
with the matching identifier is marked completed (justification the reply,
or `Validation failed: <error>` on failure), the completed count becomes 1,
the mode becomes TASKS_COMPLETED, a reply (or apology) is appended and the
busy flag is cleared. -/
def resolveEpsValidation (s : SessionState) (outcome : ApiOutcome) : SessionState :=
  match s.pendingValidations with
  | [] => s
  | p :: rest =>
      let justification := match outcome with
        | .ok r => r
        | .err m => "Validation failed: " ++ m
      let reply := match outcome with
        | .ok r => r
        | .err _ => validationFailureReply
      let s1 : SessionState :=
        { s with
          tasks := s.tasks.map fun t =>
            if t.id = p.id then completeTask t justification else t,
          completedTasksCount := 1, appState := .TASKS_COMPLETED }
      let s2 := addMessage s1 .assistant reply
      { s2 with pendingValidations := rest, isLoading := false }

/-- `handleStartNewTask` (lines 262-277): only reachable from the
completion screen; clears the tasks, the count and the file, returns to
CHATTING and appends the ready message. -/
def handleStartNewTask (s : SessionState) : SessionState :=
  if s.appState = .TASKS_COMPLETED then
    addMessage
      { s with appState := .CHATTING, tasks := [], completedTasksCount := 0, currentFile := "" }
      .assistant newTaskReply
  else s

/-- `handleSidebarNavigation` (lines 237-259): `new-task` shows the
confirmation form; `history` only reads; the other two append one fixed
assistant message each. -/
def handleSidebarNavigation (s : SessionState) (action : String) : SessionState :=
  if action = "new-task" then { s with showConfirmation := true }
  else if action = "history" then s
  else if action = "request-feature" then addMessage s .assistant featureReply
  else if action = "privacy" then addMessage s .assistant privacyReply
  else s

/-- The events the orchestrator reacts to: user intents and resolutions of
outstanding requests. -/
inductive Event where
  | sendMessage (content : String)
  | chatResolved (outcome : ApiOutcome)
  | confirmFile (data : EpsConfirmationData)
  | validationResolved (outcome : ApiOutcome)
  | startNewTask
  | sidebar (action : String)
deriving DecidableEq

/-- One event-handler step. -/
def step (s : SessionState) : Event → SessionState
  | .sendMessage c => handleSendMessage s c
  | .chatResolved o => resolveChatRequest s o
  | .confirmFile d => handleFileConfirmation s d
  | .validationResolved o => resolveEpsValidation s o
  | .startNewTask => handleStartNewTask s
  | .sidebar a => handleSidebarNavigation s a

/-- The initial state of `ChatPage`: CHATTING, everything empty. -/
def init : SessionState :=
  { appState := .CHATTING, messages := [], tasks := [], completedTasksCount := 0,
    currentFile := "", isLoading := false, showConfirmation := false,
    pendingChats := 0, pendingValidations := [], nextId := 0 }

/-- Run a list of events from a state. -/
def run (s : SessionState) (events : List Event) : SessionState := events.foldl step s

/-- A state reachable from the initial state by some event sequence. -/
def Reachable (s : SessionState) : Prop := ∃ events, run init events = s

/-- Disciplined reachability: as `Reachable`, but a file confirmation is
never submitted while a validation request is still outstanding. -/
inductive DReach : SessionState → Prop where
  | start : DReach init
  | next (s : SessionState) (e : Event) : DReach s →
      (∀ d, e = .confirmFile d → s.pendingValidations = []) → DReach (step s e)

/-- The mode/task-collection invariant claimed by the specification. -/
def modeInvariant (s : SessionState) : Prop :=
  (s.appState = .CHATTING → s.tasks = []) ∧
  (s.appState = .TASK_MODE → s.tasks ≠ [] ∧ ¬ (∀ t ∈ s.tasks, t.completed = true)) ∧
  (s.appState = .TASKS_COMPLETED → s.tasks ≠ [] ∧ ∀ t ∈ s.tasks, t.completed = true)

/-- Strengthened inductive invariant relating the mode, the task collection
and the outstanding-validation queue. -/
def CoreInv (mode : AppState) (tasks pv : List Task) : Prop :=
  (mode = .CHATTING → tasks = [] ∧ pv = []) ∧
  (mode = .TASK_MODE →
    ∃ t, tasks = [t] ∧ t.completed = false ∧ ∃ p, pv = [p] ∧ p.id = t.id) ∧
  (mode = .TASKS_COMPLETED → tasks ≠ [] ∧ (∀ t ∈ tasks, t.completed = true) ∧ pv = [])

/-- `CoreInv` read off a session state. -/
def Inv (s : SessionState) : Prop := CoreInv s.appState s.tasks s.pendingValidations

/-! ## Concrete scenario inputs -/

/-- A sample confirmation payload. -/
def sampleData : EpsConfirmationData :=
  { pathToFile := "checkout.log", epsLogContent := "INFO payment ok",
    testCaseContent := "1. pay" }

/-- The first task the machine creates from `init` (identifier 0). -/
def taskZero : Task :=
  { id := 0, description := "Validate test case against EPS log", completed := false,
    justification := none, epsLogContent := some "INFO payment ok",
    testCaseContent := some "1. pay" }

/-- Event sequence overlapping two validations: a second confirmation is
submitted while the first validation is still in flight, and the first
(stale) resolution then arrives. -/
def badEvents : List Event :=
  [.sidebar "new-task", .confirmFile sampleData, .sidebar "new-task",
   .confirmFile sampleData, .validationResolved (.ok "Overall Result: PASS")]

/-- The state reached by `badEvents`. -/
def sBad : SessionState := run init badEvents

/-- Events of a failing single-validation run. -/
def failEvents : List Event :=
  [.sidebar "new-task", .confirmFile sampleData, .validationResolved (.err "Unknown error")]

/-- The state reached by `failEvents`. -/
def sFail : SessionState := run init failEvents

/-- A state with one pending validation (confirmation submitted, request
in flight). -/
def sPending : SessionState := run init [.sidebar "new-task", .confirmFile sampleData]

/-- A busy state: one free-text chat request in flight. -/
def sBusy : SessionState := handleSendMessage init "hello"

/-- A 150-character input for the truncation boundary analysis. -/
def longContent : String := String.mk (List.replicate 150 'a')

/-! ## String lemmas -/

theorem strData_append (a b : String) : (a ++ b).data = a.data ++ b.data := by
  cases a; cases b; rfl

theorem strAppend_assoc (a b c : String) : a ++ b ++ c = a ++ (b ++ c) := by
  cases a; cases b; cases c
  exact congrArg String.mk (List.append_assoc _ _ _)

theorem strLength_mk (l : List Char) : (String.mk l).length = l.length := rfl

theorem strLength_append (a b : String) : (a ++ b).length = a.length + b.length := by
  cases a; cases b
  exact List.length_append _ _

theorem hasPre_self_append (p w : List Char) : hasPre p (p ++ w) = true := by
  induction p with
  | nil => rfl
  | cons c cs ih => simp [hasPre, ih]

theorem occursIn_self_append (p w : List Char) : occursIn p (p ++ w) = true := by
  cases p with
  | nil =>
    cases w with
    | nil => rfl
    | cons c cs => simp [occursIn, hasPre]
  | cons c cs =>
    simp only [occursIn, Bool.or_eq_true]
    exact Or.inl (hasPre_self_append (c :: cs) w)

theorem strContains_of_data (hay needle : String) (w : List Char)
    (h : hay.data = needle.data ++ w) : strContains hay needle = true := by
  simp [strContains, h, occursIn_self_append]

theorem validation_failed_contains (m : String) :
    strContains ("Validation failed: " ++ m) "Validation failed:" = true := by
  apply strContains_of_data _ _ (' ' :: m.data)
  rw [strData_append]
  have h : "Validation failed: ".data = "Validation failed:".data ++ [' '] := by decide
  rw [h, List.append_assoc]
  rfl

theorem hasPre_iff (p l : List Char) : hasPre p l = true ↔ ∃ w, l = p ++ w := by
  induction p generalizing l with
  | nil => simpa [hasPre] using ⟨l, rfl⟩
  | cons a as ih =>
    cases l with
    | nil =>
      simp only [hasPre]
      constructor
      · intro h; exact absurd h (by decide)
      · rintro ⟨w, hw⟩; cases hw
    | cons b bs =>
      simp only [hasPre, Bool.and_eq_true, decide_eq_true_eq, ih]
      constructor
      · rintro ⟨rfl, w, rfl⟩; exact ⟨w, rfl⟩
      · rintro ⟨w, hw⟩
        injection hw with h1 h2
        exact ⟨h1.symm, w, h2⟩

theorem stepNoHit_iff (l : List Char) :
    stepNoHit l = true ↔
      ∃ w, l = "stepno".data ++ w ∧
        (w = [] ∨ ∃ c ws, w = c :: ws ∧ isWordChar c = false) := by
  unfold stepNoHit
  rw [Bool.and_eq_true, hasPre_iff]
  constructor
  · rintro ⟨⟨w, rfl⟩, h2⟩
    refine ⟨w, rfl, ?_⟩
    have hdrop : ("stepno".data ++ w).drop 6 = w := by
      have h6 : ("stepno".data).length = 6 := by decide
      rw [← h6, List.drop_left]
    rw [hdrop] at h2
    cases w with
    | nil => exact Or.inl rfl
    | cons c ws =>
      refine Or.inr ⟨c, ws, rfl, ?_⟩
      simpa using h2
  · rintro ⟨w, rfl, h2⟩
    have hdrop : ("stepno".data ++ w).drop 6 = w := by
      have h6 : ("stepno".data).length = 6 := by decide
      rw [← h6, List.drop_left]
    refine ⟨⟨w, rfl⟩, ?_⟩
    rw [hdrop]
    rcases h2 with rfl | ⟨c, ws, rfl, hc⟩
    · rfl
    · simpa using hc

theorem scanTC_iff_exists (l : List Char) :
    scanTC l = true ↔ ∃ u v, l = u ++ v ∧ hitTC v = true := by
  induction l with
  | nil =>
    simp only [scanTC]
    constructor
    · intro h; exact absurd h (by decide)
    · rintro ⟨u, v, huv, hv⟩
      obtain ⟨rfl, rfl⟩ := List.append_eq_nil.mp huv.symm
      exact absurd hv (by decide)
  | cons c cs ih =>
    simp only [scanTC, Bool.or_eq_true, ih]
    constructor
    · rintro (h | ⟨u, v, rfl, hv⟩)
      · exact ⟨[], c :: cs, rfl, h⟩
      · exact ⟨c :: u, v, rfl, hv⟩
    · rintro ⟨u, v, huv, hv⟩
      cases u with
      | nil =>
        rw [List.nil_append] at huv
        exact Or.inl (huv ▸ hv)
      | cons a us =>
        injection huv with h1 h2
        exact Or.inr ⟨us, v, h2, hv⟩

theorem hitTC_iff (v : List Char) :
    hitTC v = true ↔
      (∃ w, v = "\x7btestcaseid".data ++ w) ∨ (∃ w, v = "<stepno".data ++ w) ∨
      (∃ w, v = "stepno".data ++ w ∧
        (w = [] ∨ ∃ c ws, w = c :: ws ∧ isWordChar c = false)) := by
  simp only [hitTC, Bool.or_eq_true, hasPre_iff, stepNoHit_iff, or_assoc]

/-! ## Option/truthiness lemmas -/

theorem truthy_false_iff (o : Option String) : truthy o = false ↔ o = none ∨ o = some "" := by
  cases o with
  | none => simp [truthy]
  | some s => by_cases h : s = "" <;> simp [truthy, h]

theorem jsOrElse_truthy (s b : String) (h : s ≠ "") : jsOrElse (some s) b = s := by
  simp [jsOrElse, h]

theorem jsOrElse_falsy (o : Option String) (b : String) (h : truthy o = false) :
    jsOrElse o b = b := by
  rcases (truthy_false_iff o).1 h with rfl | rfl <;> simp [jsOrElse]

/-! ## Claim theorems -/

/-- Claim C3: whenever the busy flag is true, sending a free-text message is
a no-op — the handler returns the state unchanged, so the message list, the
pending-request queues (no network call) and every other component of the
session state are untouched. -/
theorem c3_busy_send_noop (s : SessionState) (messageContent : String)
    (h : s.isLoading = true) : handleSendMessage s messageContent = s := by
  simp [handleSendMessage, h]

/-- Witness for C3: a concrete busy state (one chat request in flight),
where a second send changes nothing. -/
theorem c3_busy_send_noop_witness : handleSendMessage sBusy "ping" = sBusy :=
  c3_busy_send_noop sBusy "ping" (by decide)

/-- Claim C4 (amended: for `maxLength ≥ 100`): `truncateContent` returns
content unchanged when its length is within the limit; otherwise it returns
the first `maxLength - 100` characters followed by the explanatory suffix,
its length is `maxLength - 100` plus the suffix length, and the suffix
contains the decimal renderings of the original length and of the limit. -/
theorem c4_truncate_contract :
    (∀ (content : String) (maxLength : Nat), 100 ≤ maxLength →
        content.length ≤ maxLength → truncateContent content maxLength = content) ∧
    (∀ (content : String) (maxLength : Nat), 100 ≤ maxLength →
        maxLength < content.length →
        truncateContent content maxLength =
          String.mk (content.data.take (maxLength - 100)) ++
            truncSuffix content.length maxLength ∧
        (truncateContent content maxLength).length =
          maxLength - 100 + (truncSuffix content.length maxLength).length ∧
        (∃ u v, truncSuffix content.length maxLength = u ++ toString content.length ++ v) ∧
        (∃ u v, truncSuffix content.length maxLength = u ++ toString maxLength ++ v)) := by
  constructor
  · intro content maxLength _ hle
    unfold truncateContent
    rw [if_pos hle]
  · intro content maxLength h100 hgt
    have hcond : ¬ content.length ≤ maxLength := by omega
    have htn : ((maxLength : Int) - 100).toNat = maxLength - 100 := by omega
    have hslice : jsSlice content ((maxLength : Int) - 100) =
        String.mk (content.data.take (maxLength - 100)) := by
      unfold jsSlice
      rw [if_pos (by omega : (0 : Int) ≤ (maxLength : Int) - 100), htn]
    refine ⟨?_, ?_, ?_, ?_⟩
    · unfold truncateContent
      rw [if_neg hcond, hslice]
    · unfold truncateContent
      rw [if_neg hcond, hslice, strLength_append, strLength_mk, List.length_take]
      have hdata : content.data.length = content.length := rfl
      have hmin : min (maxLength - 100) content.data.length = maxLength - 100 := by omega
      rw [hmin]
    · exact ⟨"...\n[Content truncated: Original length ",
        " exceeds limit of " ++ toString maxLength ++
          " characters. Please use a smaller input or a larger model.]",
        by simp only [truncSuffix, strAppend_assoc]⟩
    · exact ⟨"...\n[Content truncated: Original length " ++ toString content.length ++
          " exceeds limit of ",
        " characters. Please use a smaller input or a larger model.]",
        by simp only [truncSuffix, strAppend_assoc]⟩

set_option maxRecDepth 16000 in
/-- Counterexample for C4 as stated: with `maxLength = 0` (below the 100
subtracted for the suffix) and a 150-character input, `slice(0, -100)` keeps
the first 50 characters (a negative end index counts from the end), so the
output is neither the claimed "first `maxLength - 100` characters plus
suffix" nor of the claimed length. -/
theorem c4_counterexample :
    longContent.length = 150 ∧
    (truncateContent longContent 0).length ≠ 0 - 100 + (truncSuffix 150 0).length ∧
    truncateContent longContent 0 ≠
      String.mk (longContent.data.take (0 - 100)) ++ truncSuffix 150 0 := by
  refine ⟨by decide, by decide, by decide⟩

/-- Claim C5: on a non-success HTTP status `sendChatMessage` does not
resolve to an ordinary reply — the single fetch's thrown
`HTTP error! status: <code>` (carrying the status code, no retry) is
reported in the `error` field of the result; any network-level failure is
likewise reported in the `error` field; only an ok status yields a result
with no `error` field. -/
theorem c5_transport_failures :
    (∀ (req : ChatRequest) (st : Nat) (body : OllamaBody), respOk st = false →
        sendChatMessage req (.response st body) =
          { reply := connectApology, error := some ("HTTP error! status: " ++ toString st) }) ∧
    (∀ (req : ChatRequest) (m : String),
        sendChatMessage req (.networkFailure m) =
          { reply := connectApology, error := some m }) ∧
    (∀ (req : ChatRequest) (st : Nat) (body : OllamaBody), respOk st = true →
        (sendChatMessage req (.response st body)).error = none) := by
  refine ⟨fun req st body h => ?_, fun req m => rfl, fun req st body h => ?_⟩
  · simp [sendChatMessage, h]
  · simp [sendChatMessage, h]

/-- Claim C6: on a 2xx response `sendChatMessage` always resolves to an
ordinary reply (never throws): the reply is `extractReply` of the body,
which takes `message.content` when truthy, else `content` when truthy, else
the literal `No reply from model`; `choices[0].message.content` is ignored
by it and consulted (third, before the same fallback) only by the mock
route's `extractReplyMock`. -/
theorem c6_reply_extraction :
    (∀ (req : ChatRequest) (st : Nat) (body : OllamaBody), respOk st = true →
        sendChatMessage req (.response st body) = { reply := extractReply body, error := none }) ∧
    (∀ (body : OllamaBody) (s : String), body.messageContent = some s → s ≠ "" →
        extractReply body = s) ∧
    (∀ (body : OllamaBody) (s : String), truthy body.messageContent = false →
        body.content = some s → s ≠ "" → extractReply body = s) ∧
    (∀ body : OllamaBody, truthy body.messageContent = false →
        truthy body.content = false → extractReply body = "No reply from model") ∧
    (∀ (body : OllamaBody) (c : Option String),
        extractReply { body with choice0MessageContent := c } = extractReply body) ∧
    (∀ (body : OllamaBody) (s : String), truthy body.messageContent = false →
        truthy body.content = false → body.choice0MessageContent = some s → s ≠ "" →
        extractReplyMock body = s) ∧
    (∀ body : OllamaBody, truthy body.messageContent = false →
        truthy body.content = false → truthy body.choice0MessageContent = false →
        extractReplyMock body = "No reply from model") := by
  refine ⟨fun req st body h => by simp [sendChatMessage, h],
    fun body s hm hne => ?_, fun body s hm hc hne => ?_, fun body hm hc => ?_,
    fun body c => rfl, fun body s hm hc h3 hne => ?_, fun body hm hc h3 => ?_⟩
  · unfold extractReply
    rw [hm]
    exact jsOrElse_truthy _ _ hne
  · unfold extractReply
    rw [jsOrElse_falsy _ _ hm, hc]
    exact jsOrElse_truthy _ _ hne
  · unfold extractReply
    rw [jsOrElse_falsy _ _ hm, jsOrElse_falsy _ _ hc]
  · unfold extractReplyMock
    rw [jsOrElse_falsy _ _ hm, jsOrElse_falsy _ _ hc, h3]
    exact jsOrElse_truthy _ _ hne
  · unfold extractReplyMock
    rw [jsOrElse_falsy _ _ hm, jsOrElse_falsy _ _ hc, jsOrElse_falsy _ _ h3]

/-- Claim C8: called without an explicit limit, `truncateContent` applies
the default limit of 50000 characters; in particular content within 50000
characters passes through unchanged. -/
theorem c8_default_limit :
    (∀ content : String, truncateContentDefault content = truncateContent content 50000) ∧
    (∀ content : String, content.length ≤ 50000 → truncateContentDefault content = content) := by
  refine ⟨fun _ => rfl, fun content h => ?_⟩
  unfold truncateContentDefault truncateContent
  rw [if_pos h]

/-- Claim C9: the validation prompt contains both inputs as contiguous
substrings and ends with the fixed user instruction sentence. -/
theorem c9_prompt_shape (epsLogContent testCaseContent : String) :
    (∃ u v, buildEpsValidationPrompt epsLogContent testCaseContent =
      u ++ epsLogContent ++ v) ∧
    (∃ u v, buildEpsValidationPrompt epsLogContent testCaseContent =
      u ++ testCaseContent ++ v) ∧
    (∃ u, buildEpsValidationPrompt epsLogContent testCaseContent =
      u ++ userInstruction) := by
  unfold buildEpsValidationPrompt
  refine ⟨⟨promptHead, promptMid ++ testCaseContent ++ promptBody ++ userInstruction, ?_⟩,
    ⟨promptHead ++ epsLogContent ++ promptMid, promptBody ++ userInstruction, ?_⟩,
    ⟨promptHead ++ epsLogContent ++ promptMid ++ testCaseContent ++ promptBody, rfl⟩⟩ <;>
  simp only [strAppend_assoc]

/-- Claim C10: `sendChatMessage` posts the raw `message` as the prompt
whenever either optional content is absent or empty (presence is tested by
truthiness), and takes the truncation/validation-prompt path exactly when
both are non-empty. -/
theorem c10_prompt_selection :
    (∀ req : ChatRequest,
        req.epsLogContent = none ∨ req.epsLogContent = some "" ∨
          req.testCaseContent = none ∨ req.testCaseContent = some "" →
        requestPrompt req = req.message) ∧
    (∀ (req : ChatRequest) (log tc : String), req.epsLogContent = some log → log ≠ "" →
        req.testCaseContent = some tc → tc ≠ "" →
        requestPrompt req =
          buildEpsValidationPrompt (truncateContentDefault log) (truncateContentDefault tc)) := by
  constructor
  · intro req h
    have hfalse : (truthy req.epsLogContent && truthy req.testCaseContent) = false := by
      rcases h with h | h | h | h <;> simp [h, truthy]
    unfold requestPrompt
    rw [hfalse]
    simp
  · intro req log tc h1 h2 h3 h4
    unfold requestPrompt
    rw [h1, h3]
    simp [truthy, h2, h4]

/-- Claim C7: the detection predicate is case-insensitive (it depends only
on the lower-cased text), holds exactly when the lower-cased text contains
the literal `{testcaseid`, the literal `<stepno`, or `stepno` followed by a
word boundary, matches the three sample inputs, and rejects plain prose
containing none of the tokens. -/
theorem c7_detection_predicate :
    (∀ s t : String, lcs s = lcs t → isTestCaseContent s = isTestCaseContent t) ∧
    (∀ s : String, isTestCaseContent s = true ↔
        (∃ u v, lcs s = u ++ "\x7btestcaseid".data ++ v) ∨
        (∃ u v, lcs s = u ++ "<stepno".data ++ v) ∨
        (∃ u v, lcs s = u ++ "stepno".data ++ v ∧
          (v = [] ∨ ∃ c w, v = c :: w ∧ isWordChar c = false))) ∧
    isTestCaseContent "\x7bTestCaseID: \"TC1\"\x7d" = true ∧
    isTestCaseContent "StepNo: 1" = true ∧
    isTestCaseContent "<StepNo>1</StepNo>" = true ∧
    isTestCaseContent "The payment log shows a successful transaction." = false := by
  refine ⟨fun s t h => by unfold isTestCaseContent; rw [h], fun s => ?_,
    by decide, by decide, by decide, by decide⟩
  unfold isTestCaseContent
  rw [scanTC_iff_exists]
  constructor
  · rintro ⟨u, v, huv, hv⟩
    rcases (hitTC_iff v).1 hv with ⟨w, rfl⟩ | ⟨w, rfl⟩ | ⟨w, rfl, hb⟩
    · exact Or.inl ⟨u, w, by rw [huv, List.append_assoc]⟩
    · exact Or.inr (Or.inl ⟨u, w, by rw [huv, List.append_assoc]⟩)
    · exact Or.inr (Or.inr ⟨u, w, by rw [huv, List.append_assoc], hb⟩)
  · rintro (⟨u, w, hw⟩ | ⟨u, w, hw⟩ | ⟨u, w, hw, hb⟩)
    · exact ⟨u, "\x7btestcaseid".data ++ w, by rw [hw, List.append_assoc],
        (hitTC_iff _).2 (Or.inl ⟨w, rfl⟩)⟩
    · exact ⟨u, "<stepno".data ++ w, by rw [hw, List.append_assoc],
        (hitTC_iff _).2 (Or.inr (Or.inl ⟨w, rfl⟩))⟩
    · exact ⟨u, "stepno".data ++ w, by rw [hw, List.append_assoc],
        (hitTC_iff _).2 (Or.inr (Or.inr ⟨w, rfl, hb⟩))⟩

/-! ## Invariant preservation for the orchestrator -/

theorem addMessage_appState (s : SessionState) (r : Role) (c : String) :
    (addMessage s r c).appState = s.appState := rfl

theorem addMessage_tasks (s : SessionState) (r : Role) (c : String) :
    (addMessage s r c).tasks = s.tasks := rfl

theorem addMessage_pendingValidations (s : SessionState) (r : Role) (c : String) :
    (addMessage s r c).pendingValidations = s.pendingValidations := rfl

theorem inv_of_components (s s' : SessionState) (h1 : s'.appState = s.appState)
    (h2 : s'.tasks = s.tasks) (h3 : s'.pendingValidations = s.pendingValidations)
    (h : Inv s) : Inv s' := by
  unfold Inv at h ⊢
  rw [h1, h2, h3]
  exact h

theorem inv_init : Inv init :=
  ⟨fun _ => ⟨rfl, rfl⟩, fun h => absurd h (by decide), fun h => absurd h (by decide)⟩

theorem inv_handleSendMessage (s : SessionState) (c : String) (h : Inv s) :
    Inv (handleSendMessage s c) := by
  unfold handleSendMessage
  split
  · exact h
  split
  · exact inv_of_components _ s (by simp [addMessage]) (by simp [addMessage])
      (by simp [addMessage]) h
  · exact inv_of_components _ s (by simp [addMessage]) (by simp [addMessage])
      (by simp [addMessage]) h

theorem inv_resolveChatRequest (s : SessionState) (o : ApiOutcome) (h : Inv s) :
    Inv (resolveChatRequest s o) := by
  unfold resolveChatRequest
  split
  · exact h
  · exact inv_of_components _ s (by simp [addMessage]) (by simp [addMessage])
      (by simp [addMessage]) h

theorem inv_handleSidebarNavigation (s : SessionState) (a : String) (h : Inv s) :
    Inv (handleSidebarNavigation s a) := by
  unfold handleSidebarNavigation
  split
  · exact inv_of_components _ s rfl rfl rfl h
  split
  · exact h
  split
  · exact inv_of_components _ s (by simp [addMessage]) (by simp [addMessage])
      (by simp [addMessage]) h
  split
  · exact inv_of_components _ s (by simp [addMessage]) (by simp [addMessage])
      (by simp [addMessage]) h
  · exact h

theorem inv_handleFileConfirmation (s : SessionState) (d : EpsConfirmationData)
    (h : Inv s) (hpv : s.pendingValidations = []) : Inv (handleFileConfirmation s d) := by
  unfold handleFileConfirmation
  split
  · refine ⟨fun hm => ?_, fun _ => ?_, fun hm => ?_⟩
    · simp [addMessage] at hm
    · exact ⟨confirmationTask s d, by simp [addMessage], rfl,
        confirmationTask s d, by simp [addMessage, hpv], rfl⟩
    · simp [addMessage] at hm
  · exact h

theorem inv_resolveEpsValidation (s : SessionState) (o : ApiOutcome) (h : Inv s) :
    Inv (resolveEpsValidation s o) := by
  unfold resolveEpsValidation
  split
  · exact h
  rename_i p rest hpv
  obtain ⟨h1, h2, h3⟩ := h
  cases hm : s.appState with
  | CHATTING =>
    have := (h1 hm).2
    rw [hpv] at this
    cases this
  | TASKS_COMPLETED =>
    have := (h3 hm).2.2
    rw [hpv] at this
    cases this
  | TASK_MODE =>
    obtain ⟨t, htasks, htc, p', hpv', hid⟩ := h2 hm
    rw [hpv] at hpv'
    injection hpv' with hp hrest
    subst hp
    subst hrest
    refine ⟨fun hm2 => ?_, fun hm2 => ?_, fun _ => ?_⟩
    · simp [addMessage] at hm2
    · simp [addMessage] at hm2
    · refine ⟨?_, ?_, by simp [addMessage]⟩
      · simp [addMessage, htasks]
      · intro t2 ht2
        simp only [addMessage] at ht2
        rw [htasks] at ht2
        simp only [List.map_cons, List.map_nil, List.mem_singleton] at ht2
        rw [if_pos hid.symm] at ht2
        subst ht2
        rfl

theorem inv_handleStartNewTask (s : SessionState) (h : Inv s) :
    Inv (handleStartNewTask s) := by
  unfold handleStartNewTask
  split
  · rename_i hm
    obtain ⟨-, -, h3⟩ := h
    refine ⟨fun _ => ⟨by simp [addMessage], by simp [addMessage, (h3 hm).2.2]⟩,
      fun hm2 => ?_, fun hm2 => ?_⟩
    · simp [addMessage] at hm2
    · simp [addMessage] at hm2
  · exact h

theorem dreach_inv (s : SessionState) (h : DReach s) : Inv s := by
  induction h with
  | start => exact inv_init
  | next s' e _ hcond ih =>
    cases e with
    | sendMessage c => exact inv_handleSendMessage s' c ih
    | chatResolved o => exact inv_resolveChatRequest s' o ih
    | confirmFile d => exact inv_handleFileConfirmation s' d ih (hcond d rfl)
    | validationResolved o => exact inv_resolveEpsValidation s' o ih
    | startNewTask => exact inv_handleStartNewTask s' ih
    | sidebar a => exact inv_handleSidebarNavigation s' a ih

theorem modeInvariant_of_inv (s : SessionState) (h : Inv s) : modeInvariant s := by
  obtain ⟨h1, h2, h3⟩ := h
  refine ⟨fun hm => (h1 hm).1, fun hm => ?_, fun hm => ?_⟩
  · obtain ⟨t, ht, htc, -⟩ := h2 hm
    refine ⟨by simp [ht], fun hall => ?_⟩
    have := hall t (by simp [ht])
    rw [htc] at this
    exact absurd this (by decide)
  · obtain ⟨hne, hall, -⟩ := h3 hm
    exact ⟨hne, hall⟩

/-- Claim C1 (amended: restricted to runs in which a file confirmation is
never submitted while a validation request is still outstanding): in every
state so reachable from the initial state, the mode is CHATTING only while
the task collection is empty, TASK_MODE only while it is non-empty with an
incomplete task, and TASKS_COMPLETED only when it is non-empty with every
task completed. -/
theorem c1_mode_invariant (s : SessionState) (h : DReach s) : modeInvariant s :=
  modeInvariant_of_inv s (dreach_inv s h)

/-- Witness for C1: the invariant at the concrete state reached by opening
the form and confirming a file. -/
theorem c1_mode_invariant_witness :
    modeInvariant (step (step init (.sidebar "new-task")) (.confirmFile sampleData)) :=
  c1_mode_invariant _
    (DReach.next _ _ (DReach.next _ _ DReach.start (fun _ hd => nomatch hd))
      (fun _ _ => rfl))

/-- Counterexample for C1 as stated: submitting a second confirmation while
the first validation is still in flight and then receiving the first
(stale) resolution reaches a state in TASKS_COMPLETED mode whose single
task is not completed. -/
theorem c1_counterexample :
    Reachable sBad ∧ sBad.appState = AppState.TASKS_COMPLETED ∧
      ¬ (∀ t ∈ sBad.tasks, t.completed = true) := by
  refine ⟨⟨badEvents, rfl⟩, by decide, fun hall => ?_⟩
  exact absurd hall (by decide)

/-- Claim C2 (amended: the justification contains the substring
`Validation failed:`, with a colon as in the source, not the literal
`Validation failed.` of the claim): when the model call of a validation run
fails, the resolution still marks the single task completed with a
justification recording the failure, sets the completed count to 1 and
moves the mode to TASKS_COMPLETED — the same terminal mode as on success. -/
theorem c2_validation_failure (s : SessionState) (p t : Task) (rest : List Task)
    (m : String) (hpv : s.pendingValidations = p :: rest) (htasks : s.tasks = [t])
    (hid : t.id = p.id) :
    (resolveEpsValidation s (.err m)).appState = AppState.TASKS_COMPLETED ∧
    (resolveEpsValidation s (.err m)).completedTasksCount = 1 ∧
    (resolveEpsValidation s (.err m)).tasks =
      [completeTask t ("Validation failed: " ++ m)] ∧
    strContains ("Validation failed: " ++ m) "Validation failed:" = true := by
  refine ⟨?_, ?_, ?_, validation_failed_contains m⟩ <;>
    simp [resolveEpsValidation, hpv, htasks, hid, addMessage]

/-- Witness for C2: the failing validation run of `sPending`, resolved with
the error message `Unknown error`. -/
theorem c2_validation_failure_witness :
    (resolveEpsValidation sPending (.err "Unknown error")).appState =
      AppState.TASKS_COMPLETED ∧
    (resolveEpsValidation sPending (.err "Unknown error")).completedTasksCount = 1 ∧
    (resolveEpsValidation sPending (.err "Unknown error")).tasks =
      [completeTask taskZero ("Validation failed: " ++ "Unknown error")] ∧
    strContains ("Validation failed: " ++ "Unknown error") "Validation failed:" = true :=
  c2_validation_failure sPending taskZero taskZero [] "Unknown error"
    (by decide) (by decide) rfl

/-- Counterexample for C2 as stated: the failing run reaches the terminal
state with justification `Validation failed: Unknown error`, which does not
contain the claimed substring `Validation failed.` (the source writes a
colon after `failed`, not a period). -/
theorem c2_counterexample :
    Reachable sFail ∧ sFail.appState = AppState.TASKS_COMPLETED ∧
      sFail.completedTasksCount = 1 ∧
      sFail.tasks.map Task.justification = [some "Validation failed: Unknown error"] ∧
      strContains "Validation failed: Unknown error" "Validation failed." = false := by
  exact ⟨⟨failEvents, rfl⟩, by decide, by decide, by decide, by decide⟩

end EpsAgent
